import Mathlib

/-!
Verification of the izzy-heartbeat protocol core
(`izzy_heartbeat/heartbeat.py`, `message_type.py`, `ports.py`).

Byte sequences are modelled as `List Nat` (each entry intended < 256; where a
claim speaks of byte sequences the bound appears as a hypothesis).  Python
`None`-able attributes become `Option` fields.  A Python `uuid.UUID` is
modelled by its 16-byte binary form, since `UUID(bytes=b).bytes = b` and UUID
equality coincides with equality of the 16 bytes.  Operations that can raise
return `Option` results or an explicit outcome type carrying the raise site.
-/

/-- The attributes of `HeartbeatMessage` (heartbeat.py lines 42-59).
`sender_id`/`receiver_id` hold the 16-byte form of the UUID. -/
structure HeartbeatMessage where
  preamble : Nat
  msg_id : Option (List Nat)
  msg_length : Nat
  sender_id : Option (List Nat)
  receiver_id : Option (List Nat)
  message_type : Option Nat
  data : Option (List Nat)
  deriving DecidableEq, Repr

/-- The 11 ASCII bytes of the protocol tag `izzymessage` (heartbeat.py line 53). -/
def izzyTag : List Nat :=
  [0x69, 0x7A, 0x7A, 0x79, 0x6D, 0x65, 0x73, 0x73, 0x61, 0x67, 0x65]

/-- The `HeartbeatMessage` constructor (heartbeat.py lines 42-59). -/
def mkHeartbeatMessage (message_type : Option Nat) : HeartbeatMessage :=
  { preamble := 0x10, msg_id := some izzyTag, msg_length := 46,
    sender_id := none, receiver_id := none,
    message_type := message_type, data := none }

/-- A default-constructed `HeartbeatMessage()` (no message type), as used for
the Responder's `received_message` and `reply_message` fields and the
Listener's `message` field. -/
def mkDefault : HeartbeatMessage := mkHeartbeatMessage none

/-- Embedding of `HeartbeatMessage.set_data` (heartbeat.py lines 61-73): stores the payload
and, when it is not `None`, adds its length to the current `msg_length`. -/
def set_data (m : HeartbeatMessage) (data : Option (List Nat)) : HeartbeatMessage :=
  match data with
  | none => { m with data := none }
  | some d => { m with data := some d, msg_length := m.msg_length + d.length }

/-- Bytes appended for `msg_id` by `get_message`: the tag if present, else 11
zero bytes (heartbeat.py lines 86-91). -/
def msgIdBytes (m : HeartbeatMessage) : List Nat :=
  m.msg_id.getD (List.replicate 11 0)

/-- Bytes appended for `sender_id` by `get_message`: the 16 UUID bytes if
present, else 16 zero bytes (heartbeat.py lines 95-100). -/
def senderBytes (m : HeartbeatMessage) : List Nat :=
  m.sender_id.getD (List.replicate 16 0)

/-- Bytes appended for `receiver_id` by `get_message` (heartbeat.py 102-107). -/
def receiverBytes (m : HeartbeatMessage) : List Nat :=
  m.receiver_id.getD (List.replicate 16 0)

/-- Bytes appended for the payload by `get_message` (heartbeat.py 111-113). -/
def dataBytes (m : HeartbeatMessage) : List Nat :=
  m.data.getD []

/-- Embedding of `HeartbeatMessage.get_message` (heartbeat.py lines 75-115).  Returns
`none` when the Python code would raise: `bytearray.append` raises `TypeError`
on `message_type = None` and `ValueError` on any value outside `0..255`. -/
def get_message (m : HeartbeatMessage) : Option (List Nat) :=
  match m.message_type with
  | none => none
  | some mt =>
    if m.preamble < 256 ∧ (∀ b ∈ msgIdBytes m, b < 256) ∧ m.msg_length < 256 ∧
        (∀ b ∈ senderBytes m, b < 256) ∧ (∀ b ∈ receiverBytes m, b < 256) ∧
        mt < 256 ∧ (∀ b ∈ dataBytes m, b < 256) then
      some ([m.preamble] ++ msgIdBytes m ++ [m.msg_length] ++ senderBytes m ++
            receiverBytes m ++ [mt] ++ dataBytes m)
    else none

/-- Sites at which `process_packet` raises: `index i` for an out-of-range
`data[i]`, `uuid` for `UUID(bytes=b)` with `b` not exactly 16 bytes. -/
inductive PPError where
  | index (i : Nat)
  | uuid
  deriving DecidableEq, Repr

/-- Outcome of `process_packet`: `ok`/`rejected` carry the new state of the
message after the `True`/`False` return; `error` records an escaped raise. -/
inductive PPOutcome where
  | ok (m : HeartbeatMessage)
  | rejected (m : HeartbeatMessage)
  | error (e : PPError)
  deriving DecidableEq, Repr

/-- Embedding of `HeartbeatMessage.process_packet` (heartbeat.py lines 117-149), following
the source's evaluation order: read byte 0 into `preamble` and bytes 1-11 into
`msg_id`, read the length byte 12, and only if the total length equals it fill
`msg_length`, the two ids (each `UUID(bytes=...)` demanding exactly 16 bytes),
the type byte 45 and the payload (bytes 46.. or `None`). -/
def process_packet (m : HeartbeatMessage) (raw_data : List Nat) : PPOutcome :=
  match raw_data[0]? with
  | none => PPOutcome.error (PPError.index 0)
  | some b0 =>
    match raw_data[12]? with
    | none => PPOutcome.error (PPError.index 12)
    | some b12 =>
      if raw_data.length = b12 then
        if ((raw_data.drop 13).take 16).length = 16 then
          if ((raw_data.drop 29).take 16).length = 16 then
            match raw_data[45]? with
            | none => PPOutcome.error (PPError.index 45)
            | some b45 =>
              PPOutcome.ok
                { preamble := b0, msg_id := some ((raw_data.drop 1).take 11),
                  msg_length := b12,
                  sender_id := some ((raw_data.drop 13).take 16),
                  receiver_id := some ((raw_data.drop 29).take 16),
                  message_type := some b45,
                  data := if 46 < raw_data.length
                          then some (raw_data.drop 46) else none }
          else PPOutcome.error PPError.uuid
        else PPOutcome.error PPError.uuid
      else PPOutcome.rejected
        { m with preamble := b0, msg_id := some ((raw_data.drop 1).take 11) }

/-- MessageType.HELLO (message_type.py). -/
def MessageType.HELLO : Nat := 0x01
/-- MessageType.HERE (message_type.py). -/
def MessageType.HERE : Nat := 0x02
/-- MessageType.SETUP_ERROR (message_type.py). -/
def MessageType.SETUP_ERROR : Nat := 0x03
/-- MessageType.MOVING (message_type.py). -/
def MessageType.MOVING : Nat := 0x04
/-- MessageType.FOLLOWING (message_type.py). -/
def MessageType.FOLLOWING : Nat := 0x05
/-- MessageType.ESTOP (message_type.py). -/
def MessageType.ESTOP : Nat := 0x06

/-- The Responder's validation of `self.received_message` (heartbeat.py lines
279-282): nested checks of preamble against `0x01`, the tag list, and the
HELLO type; a record is accepted exactly when all three hold. -/
def validationPasses (m : HeartbeatMessage) : Bool :=
  m.preamble == 0x01 && m.msg_id == some izzyTag &&
    m.message_type == some MessageType.HELLO

/-- Modelled from the spec: the status enumeration of the external
`izzy_devices.MotherStatus` collaborator (not under src/); section 3 of the
spec lists the session status values DISCONNECTED, CONNECTED. -/
inductive MotherStatus where
  | DISCONNECTED
  | CONNECTED
  deriving DecidableEq, Repr

/-- The peer-session state mutated by the Responder (`self.mother`):
`my_id` (UUID as 16 bytes, nullable), `ip_address`, `status`, `last_contact`. -/
structure Mother where
  my_id : Option (List Nat)
  ip_address : Nat
  status : MotherStatus
  last_contact : Nat
  deriving DecidableEq, Repr

/-- The Responder's session update (heartbeat.py lines 284-289): when
`mother.my_id` is `None` or differs from the incoming sender id, overwrite
id, address and status and call `set_last_contact` (modelled as stamping
`now`); otherwise nothing is written. -/
def sessionUpdate (mother : Mother) (sender_id : Option (List Nat))
    (ip now : Nat) : Mother :=
  if mother.my_id = none ∨ mother.my_id ≠ sender_id then
    { mother with
      my_id := sender_id, ip_address := ip,
      status := MotherStatus.CONNECTED, last_contact := now }
  else mother

/-- State of a `HeartbeatServerThread` (heartbeat.py lines 152-205): the
`_running` flag plus a count of `sendto` calls performed so far. -/
structure HeartbeatServerThread where
  running : Bool
  sends : Nat
  deriving DecidableEq, Repr

/-- Embedding of `HeartbeatServerThread.stop` (heartbeat.py lines 201-205). -/
def serverStop (s : HeartbeatServerThread) : HeartbeatServerThread :=
  { s with running := false }

/-- One boundary-to-boundary iteration of `HeartbeatServerThread.run`
(heartbeat.py lines 190-199): the `while self._running` test, then a send and
a sleep when it holds, nothing when the loop has exited. -/
def serverIter (s : HeartbeatServerThread) : HeartbeatServerThread :=
  if s.running then { s with sends := s.sends + 1 } else s

/-- An item of the tuple records exchanged through the `hb_messages` queue.
Python tuples are heterogeneous and dynamically sized, so a record is a
`List QueueItem`. -/
inductive QueueItem where
  | count (n : Nat)
  | msg (m : HeartbeatMessage)
  | addr (a : Nat × Nat)
  deriving DecidableEq, Repr

/-- The record the Listener enqueues (heartbeat.py lines 253-254): the tuple
`(len(data), self.message, address)`. -/
def listenerEnqueue (data : List Nat) (m : HeartbeatMessage)
    (address : Nat × Nat) : List QueueItem :=
  [QueueItem.count data.length, QueueItem.msg m, QueueItem.addr address]

/-- The Responder's destructuring `data, address = self.hb_messages.get()`
(heartbeat.py line 278): unpacking a tuple into two targets succeeds exactly
for 2-tuples; any other arity raises `ValueError`. -/
def unpackPair (t : List QueueItem) : Option (QueueItem × QueueItem) :=
  match t with
  | [x, y] => some (x, y)
  | _ => none

/-- The Responder's send-socket lifecycle (heartbeat.py lines 343-345):
whether `self.send_socket` is open, and how many replies have gone out
through an open socket. -/
structure ResponderSendSocket where
  isOpen : Bool
  repliesThroughOpen : Nat
  deriving DecidableEq, Repr

/-- One reply transmission attempt (heartbeat.py lines 343-345): `sendto`
succeeds only on an open socket, after which `close()` is called; on a closed
socket `sendto` raises and no reply goes out, and nothing ever reopens it. -/
def replySend (r : ResponderSendSocket) : ResponderSendSocket :=
  if r.isOpen then { isOpen := false, repliesThroughOpen := r.repliesThroughOpen + 1 }
  else r

/-- The socket state when the Responder thread starts: open, nothing sent. -/
def responderSocketInit : ResponderSendSocket :=
  { isOpen := true, repliesThroughOpen := 0 }

/-- A concrete fully protocol-correct HELLO message: preamble 0x10, the
protocol tag, type HELLO, a sender id. -/
def helloRecordMessage : HeartbeatMessage :=
  { preamble := 0x10, msg_id := some izzyTag, msg_length := 46,
    sender_id := some (List.replicate 16 7),
    receiver_id := some (List.replicate 16 0),
    message_type := some MessageType.HELLO, data := none }

/-- A concrete session already bound to the sender id 7...7 at time 10. -/
def motherC5 : Mother :=
  { my_id := some (List.replicate 16 7), ip_address := 3,
    status := MotherStatus.CONNECTED, last_contact := 10 }

/-- A concrete 13-byte raw packet whose byte 12 is 5, so its total length 13
does not equal its declared length. -/
def rawC4 : List Nat := List.replicate 12 9 ++ [5]

/-- A message built like the Responder's reply: constructed with type HERE,
then `set_data` called twice on the same instance ([1,2,3] then [4,5]). -/
def mC6 : HeartbeatMessage :=
  set_data (set_data (mkHeartbeatMessage (some MessageType.HERE)) (some [1, 2, 3]))
    (some [4, 5])

/-- A concrete 45-byte raw packet whose byte 12 is 45: total length equals
the declared length but the packet is one byte short of the base size. -/
def rawC10 : List Nat := List.replicate 12 0 ++ [45] ++ List.replicate 32 0

/-- A valid message carrying a present-but-empty payload (length 0). -/
def mC7 : HeartbeatMessage :=
  { preamble := 0x10, msg_id := some izzyTag, msg_length := 46,
    sender_id := some (List.replicate 16 3),
    receiver_id := some (List.replicate 16 4),
    message_type := some MessageType.HELLO, data := some [] }

/-- A valid message with ids, type HELLO and the 1-byte payload [7]. -/
def mC7w : HeartbeatMessage :=
  { preamble := 0x10, msg_id := some izzyTag, msg_length := 47,
    sender_id := some (List.replicate 16 3),
    receiver_id := some (List.replicate 16 4),
    message_type := some MessageType.HELLO, data := some [7] }

/-- C1: the packet the Responder actually encodes and transmits is
`self.reply_message` after `set_data` (heartbeat.py lines 341-344), an
instance still at its constructor defaults: whatever the status payload, its
`sender_id`, `receiver_id` and `message_type` are all `None` (the populated
local `reply` of lines 291-296 is never sent), and encoding it fails
(`bytearray.append(None)` raises `TypeError`), contradicting the claim that
the transmitted reply carries the agent id, the session's remoteId and the
HERE type. -/
theorem c1_transmitted_reply_unpopulated (d : List Nat) :
    (set_data mkDefault (some d)).sender_id = none ∧
    (set_data mkDefault (some d)).receiver_id = none ∧
    (set_data mkDefault (some d)).message_type = none ∧
    get_message (set_data mkDefault (some d)) = none := by
  refine ⟨rfl, rfl, rfl, ?_⟩
  simp [set_data, get_message, mkDefault, mkHeartbeatMessage]

/-- C2: every record the Listener enqueues is indeed the triple
`(len(data), message, address)` (heartbeat.py lines 253-254), but the
Responder destructures each record into only two targets (line 278), so the
unpack raises `ValueError` on every record and validation is never reached. -/
theorem c2_responder_unpack_fails (data : List Nat) (m : HeartbeatMessage)
    (address : Nat × Nat) :
    listenerEnqueue data m address =
      [QueueItem.count data.length, QueueItem.msg m, QueueItem.addr address] ∧
    unpackPair (listenerEnqueue data m address) = none :=
  ⟨rfl, rfl⟩

/-- C3: a fully protocol-correct record (message with preamble 0x10, tag
`izzymessage`, type HELLO) does not pass the Responder's validation, because
the code compares the preamble against 0x01 (heartbeat.py line 279) — and it
evaluates the checks on `self.received_message`, which is never populated
from the queue record and keeps its constructor defaults, so the default
message fails the check as well and no record is ever accepted. -/
theorem c3_valid_hello_discarded :
    helloRecordMessage.preamble = 0x10 ∧
    helloRecordMessage.msg_id = some izzyTag ∧
    helloRecordMessage.message_type = some MessageType.HELLO ∧
    validationPasses helloRecordMessage = false ∧
    validationPasses mkDefault = false := by decide

/-- C5 counterexample: a session already bound to sender id 7...7 with
`last_contact = 10` receives a second valid HELLO from the same sender at
time 99; `sessionUpdate` leaves `last_contact` at 10, so `lastContact` is not
refreshed on every valid HELLO as the claim states. -/
theorem c5_counterexample :
    (sessionUpdate motherC5 (some (List.replicate 16 7)) 3 99).last_contact = 10 ∧
    (10 : Nat) ≠ 99 := by decide

/-- C5 (amended): a second valid HELLO whose sender id equals the session's
current remoteId leaves the whole session unchanged — remoteId and address,
but also status and lastContact; lastContact is refreshed only when the
sender id is unset or differs (heartbeat.py lines 284-289). -/
theorem c5_same_sender_session_frozen (mother : Mother) (u : List Nat)
    (ip now : Nat) (h : mother.my_id = some u) :
    sessionUpdate mother (some u) ip now = mother := by
  simp [sessionUpdate, h]

/-- C5 witness: the amended theorem evaluated on the concrete session. -/
theorem c5_witness :
    sessionUpdate motherC5 (some (List.replicate 16 7)) 3 99 = motherC5 :=
  c5_same_sender_session_frozen motherC5 (List.replicate 16 7) 3 99 rfl

/-- C4 counterexample: on the 13-byte packet `rawC4` (declared length 5, so
the length check fails) `process_packet` does return failure, but the message
state is mutated: the preamble 0x10 has been overwritten by byte 0 of the
packet and `msg_id` by its bytes 1-11, refuting that no field is populated. -/
theorem c4_counterexample :
    process_packet mkDefault rawC4 =
      PPOutcome.rejected
        { mkDefault with preamble := 9, msg_id := some (List.replicate 11 9) } ∧
    mkDefault.preamble = 0x10 ∧ (9 : Nat) ≠ 0x10 := by decide

/-- C4 (amended): whenever the total length differs from the declared length
byte, `process_packet` returns failure, and `msg_length`, `sender_id`,
`receiver_id`, `message_type` and `data` are unchanged — but `preamble` and
`msg_id` are overwritten from bytes 0 and 1-11 of the packet before the
length check (heartbeat.py lines 136-138). -/
theorem c4_amended (m : HeartbeatMessage) (raw : List Nat) (b0 k : Nat)
    (hbytes : ∀ b ∈ raw, b < 256)
    (hb0 : raw[0]? = some b0) (hk : raw[12]? = some k)
    (hne : raw.length ≠ k) :
    process_packet m raw =
      PPOutcome.rejected
        { m with preamble := b0, msg_id := some ((raw.drop 1).take 11) } ∧
    ∀ m', process_packet m raw = PPOutcome.rejected m' →
      m'.msg_length = m.msg_length ∧ m'.sender_id = m.sender_id ∧
      m'.receiver_id = m.receiver_id ∧ m'.message_type = m.message_type ∧
      m'.data = m.data := by
  have h1 : process_packet m raw =
      PPOutcome.rejected
        { m with preamble := b0, msg_id := some ((raw.drop 1).take 11) } := by
    simp only [process_packet, hb0, hk]
    rw [if_neg hne]
  refine ⟨h1, ?_⟩
  intro m' hm'
  rw [h1] at hm'
  injection hm' with h2
  subst h2
  exact ⟨rfl, rfl, rfl, rfl, rfl⟩

/-- C4 witness: the amended theorem evaluated at the concrete packet. -/
theorem c4_witness :
    process_packet mkDefault rawC4 =
      PPOutcome.rejected
        { mkDefault with
          preamble := 9, msg_id := some ((rawC4.drop 1).take 11) } ∧
    ∀ m', process_packet mkDefault rawC4 = PPOutcome.rejected m' →
      m'.msg_length = mkDefault.msg_length ∧
      m'.sender_id = mkDefault.sender_id ∧
      m'.receiver_id = mkDefault.receiver_id ∧
      m'.message_type = mkDefault.message_type ∧ m'.data = mkDefault.data :=
  c4_amended mkDefault rawC4 9 5 (by decide) (by decide) (by decide) (by decide)

/-- Helper: in an encoded packet whose tag block has 11 bytes, index 12 holds
the length byte, whatever the sizes of the later blocks. -/
theorem encIndex12 (pre len : Nat) (tagB s r : List Nat) (mt : Nat)
    (d : List Nat) (h : tagB.length = 11) :
    ([pre] ++ tagB ++ [len] ++ s ++ r ++ [mt] ++ d)[12]? = some len := by
  rw [List.getElem?_append_left (by simp [h] <;> omega)]
  rw [List.getElem?_append_left (by simp [h] <;> omega)]
  rw [List.getElem?_append_left (by simp [h] <;> omega)]
  rw [List.getElem?_append_left (by simp [h] <;> omega)]
  rw [List.getElem?_append_right (by simp [h] : ([pre] ++ tagB).length ≤ 12)]
  simp [h]

/-- C6 counterexample: after two `set_data` calls on the same instance
([1,2,3] then [4,5]) the payload is [4,5] but the length byte written by
`get_message` is 51 = 46 + 3 + 2, not 46 + 2: `set_data` accumulates with
`+=` (heartbeat.py line 73), so the claimed invariant fails under repeated
`set_data`. -/
theorem c6_counterexample :
    mC6.data = some [4, 5] ∧ mC6.msg_length = 51 ∧
    ((get_message mC6).getD [])[12]? = some 51 ∧ (51 : Nat) ≠ 46 + 2 := by
  decide

/-- C6 (amended): for a message whose `msg_length` still has the base value
46 (a fresh instance, on which `set_data` has not yet been called), a single
`set_data` makes the encoded length byte (offset 12) equal to 46 plus the
payload length; repeated `set_data` calls instead accumulate past payload
lengths into the length byte. -/
theorem c6_amended (m : HeartbeatMessage) (d : List Nat) (enc : List Nat)
    (hbase : m.msg_length = 46) (hid : (msgIdBytes m).length = 11)
    (henc : get_message (set_data m (some d)) = some enc) :
    (set_data m (some d)).msg_length = 46 + d.length ∧
    enc[12]? = some (46 + d.length) := by
  have hlen : (set_data m (some d)).msg_length = 46 + d.length := by
    simp [set_data, hbase]
  refine ⟨hlen, ?_⟩
  rw [get_message] at henc
  cases hmt : (set_data m (some d)).message_type with
  | none => rw [hmt] at henc; cases henc
  | some mt =>
    rw [hmt] at henc
    simp only at henc
    split at henc
    · injection henc with h2
      subst h2
      have hid' : (msgIdBytes (set_data m (some d))).length = 11 := hid
      rw [encIndex12 _ _ _ _ _ _ _ hid', hlen]
    · cases henc

/-- C6 witness: the amended theorem at a fresh message with payload [9]. -/
theorem c6_witness :
    (set_data (mkHeartbeatMessage (some 2)) (some [9])).msg_length =
      46 + 1 ∧
    ([0x10] ++ izzyTag ++ [47] ++ List.replicate 16 0 ++
      List.replicate 16 0 ++ [2] ++ [9])[12]? = some (46 + 1) :=
  c6_amended (mkHeartbeatMessage (some 2)) [9] _ rfl rfl (by decide)

/-- C10 counterexample: on the 45-byte packet `rawC10`, whose total length
equals its byte-12 value and is less than 46, `process_packet` raises — but
at the type-byte read `data[45]` (both 16-byte id slices succeed), not while
constructing the sender/receiver ids as the claim states. -/
theorem c10_counterexample :
    rawC10.length = 45 ∧ rawC10[12]? = some 45 ∧ rawC10.length < 46 ∧
    process_packet mkDefault rawC10 = PPOutcome.error (PPError.index 45) ∧
    PPOutcome.error (PPError.index 45) ≠ PPOutcome.error PPError.uuid := by
  decide

/-- C10 (amended): `process_packet` raises an IndexError at byte 0 on the
empty input and at byte 12 on inputs of length 1-12 (in both cases before
the length comparison can return `False`); on inputs whose total length
equals their byte-12 value, it raises in the `UUID(bytes=...)` constructions
for lengths 13-44, but at the type-byte read `data[45]` for length 45. -/
theorem c10_amended (m : HeartbeatMessage) (raw : List Nat)
    (hbytes : ∀ b ∈ raw, b < 256) :
    (raw.length = 0 →
      process_packet m raw = PPOutcome.error (PPError.index 0)) ∧
    (1 ≤ raw.length → raw.length < 13 →
      process_packet m raw = PPOutcome.error (PPError.index 12)) ∧
    (13 ≤ raw.length → raw.length ≤ 44 → raw[12]? = some raw.length →
      process_packet m raw = PPOutcome.error PPError.uuid) ∧
    (raw.length = 45 → raw[12]? = some 45 →
      process_packet m raw = PPOutcome.error (PPError.index 45)) := by
  refine ⟨?_, ?_, ?_, ?_⟩
  · intro h0
    have hraw : raw = [] := List.length_eq_zero.mp h0
    subst hraw
    rfl
  · intro h1 h13
    cases hx : raw[0]? with
    | none => exact absurd (List.getElem?_eq_none_iff.mp hx) (by omega)
    | some b0 =>
      have h12 : raw[12]? = none := List.getElem?_eq_none (by omega)
      simp only [process_packet, hx, h12]
  · intro h13 h44 hk
    cases hx : raw[0]? with
    | none => exact absurd (List.getElem?_eq_none_iff.mp hx) (by omega)
    | some b0 =>
      simp only [process_packet, hx, hk]
      rw [if_pos trivial]
      by_cases hcase : raw.length < 29
      · rw [if_neg (by simp [List.length_take, List.length_drop]; omega)]
      · rw [if_pos (by simp [List.length_take, List.length_drop]; omega),
          if_neg (by simp [List.length_take, List.length_drop]; omega)]
  · intro h45 hk
    cases hx : raw[0]? with
    | none => exact absurd (List.getElem?_eq_none_iff.mp hx) (by omega)
    | some b0 =>
      simp only [process_packet, hx, hk]
      rw [if_pos h45]
      rw [if_pos (by simp [List.length_take, List.length_drop, h45])]
      rw [if_pos (by simp [List.length_take, List.length_drop, h45])]
      have h45n : raw[45]? = none := List.getElem?_eq_none (by omega)
      simp only [h45n]

/-- C10 witness: the amended theorem evaluated at the concrete 45-byte
packet, whose hypotheses for the length-45 part hold. -/
theorem c10_witness :
    (rawC10.length = 0 →
      process_packet mkDefault rawC10 = PPOutcome.error (PPError.index 0)) ∧
    (1 ≤ rawC10.length → rawC10.length < 13 →
      process_packet mkDefault rawC10 = PPOutcome.error (PPError.index 12)) ∧
    (13 ≤ rawC10.length → rawC10.length ≤ 44 →
      rawC10[12]? = some rawC10.length →
      process_packet mkDefault rawC10 = PPOutcome.error PPError.uuid) ∧
    (rawC10.length = 45 → rawC10[12]? = some 45 →
      process_packet mkDefault rawC10 = PPOutcome.error (PPError.index 45)) :=
  c10_amended mkDefault rawC10 (by decide)

/-- C8: after `stop()` the `_running` flag is false, so every later
iteration boundary of `HeartbeatServerThread.run` observes it and performs no
send (the loop has exited), and `stop()` is idempotent
(heartbeat.py lines 190-205). -/
theorem c8_stop_halts_sender (s : HeartbeatServerThread) (n : Nat) :
    (serverIter^[n] (serverStop s)).sends = s.sends ∧
    (serverIter^[n] (serverStop s)).running = false ∧
    serverStop (serverStop s) = serverStop s := by
  have hfix : serverIter (serverStop s) = serverStop s := by
    simp [serverIter, serverStop]
  rw [Function.iterate_fixed hfix]
  exact ⟨rfl, rfl, rfl⟩

/-- Helper: decoding a well-shaped encoded packet (11-byte tag block,
16-byte id blocks, length byte equal to 46 plus the payload length)
succeeds and recovers each block; an empty payload decodes as `none`. -/
theorem process_packet_encoded (m0 : HeartbeatMessage) (pre len mt : Nat)
    (tagB sid rid pl : List Nat)
    (htag : tagB.length = 11) (hsid : sid.length = 16) (hrid : rid.length = 16)
    (hlen : len = 46 + pl.length) :
    process_packet m0 ([pre] ++ tagB ++ [len] ++ sid ++ rid ++ [mt] ++ pl) =
      PPOutcome.ok
        { preamble := pre, msg_id := some tagB, msg_length := len,
          sender_id := some sid, receiver_id := some rid,
          message_type := some mt,
          data := if pl = [] then none else some pl } := by
  have h0 : ([pre] ++ tagB ++ [len] ++ sid ++ rid ++ [mt] ++ pl)[0]? =
      some pre := by
    rw [List.getElem?_append_left (by simp [htag, hsid, hrid] <;> omega)]
    rw [List.getElem?_append_left (by simp [htag, hsid, hrid] <;> omega)]
    rw [List.getElem?_append_left (by simp [htag, hsid, hrid] <;> omega)]
    rw [List.getElem?_append_left (by simp [htag, hsid, hrid] <;> omega)]
    rw [List.getElem?_append_left (by simp [htag, hsid, hrid] <;> omega)]
    simp
  have h12 : ([pre] ++ tagB ++ [len] ++ sid ++ rid ++ [mt] ++ pl)[12]? =
      some len := encIndex12 pre len tagB sid rid mt pl htag
  have hlength : ([pre] ++ tagB ++ [len] ++ sid ++ rid ++ [mt] ++ pl).length =
      46 + pl.length := by
    simp only [List.length_append, List.length_cons, List.length_nil,
      htag, hsid, hrid] <;> omega
  have hassoc1 : [pre] ++ tagB ++ [len] ++ sid ++ rid ++ [mt] ++ pl =
      ([pre] ++ tagB ++ [len]) ++ (sid ++ (rid ++ ([mt] ++ pl))) := by
    simp [List.append_assoc]
  have hassoc2 : [pre] ++ tagB ++ [len] ++ sid ++ rid ++ [mt] ++ pl =
      ([pre] ++ tagB ++ [len] ++ sid) ++ (rid ++ ([mt] ++ pl)) := by
    simp [List.append_assoc]
  have hassoc3 : [pre] ++ tagB ++ [len] ++ sid ++ rid ++ [mt] ++ pl =
      ([pre] ++ (tagB ++ ([len] ++ (sid ++ rid ++ [mt] ++ pl)))) := by
    simp [List.append_assoc]
  have hassoc4 : [pre] ++ tagB ++ [len] ++ sid ++ rid ++ [mt] ++ pl =
      ([pre] ++ tagB ++ [len] ++ sid ++ rid ++ [mt]) ++ pl := rfl
  have hsender : (([pre] ++ tagB ++ [len] ++ sid ++ rid ++ [mt] ++ pl).drop
      13).take 16 = sid := by
    rw [hassoc1, List.drop_left' (by simp [htag]),
      List.take_left' hsid]
  have hreceiver : (([pre] ++ tagB ++ [len] ++ sid ++ rid ++ [mt] ++ pl).drop
      29).take 16 = rid := by
    rw [hassoc2, List.drop_left' (by simp [htag, hsid]),
      List.take_left' hrid]
  have htagSlice : (([pre] ++ tagB ++ [len] ++ sid ++ rid ++ [mt] ++ pl).drop
      1).take 11 = tagB := by
    rw [hassoc3, List.drop_left' (by simp)]
    rw [List.take_left' htag]
  have h45 : ([pre] ++ tagB ++ [len] ++ sid ++ rid ++ [mt] ++ pl)[45]? =
      some mt := by
    rw [List.getElem?_append_left (by simp [htag, hsid, hrid] <;> omega)]
    rw [List.getElem?_append_right (by simp [htag, hsid, hrid] <;> omega)]
    simp [htag, hsid, hrid]
  have hdata : ([pre] ++ tagB ++ [len] ++ sid ++ rid ++ [mt] ++ pl).drop 46 =
      pl := by
    rw [hassoc4, List.drop_left' (by simp [htag, hsid, hrid])]
  simp only [process_packet, h0, h12, hsender, hreceiver, htagSlice, h45,
    hlength]
  rw [if_pos hlen.symm, if_pos hsid, if_pos hrid]
  rw [hassoc4, List.drop_left' (by simp [htag, hsid, hrid])]
  by_cases hpl : pl = []
  · subst hpl
    simp
  · have hpos : 0 < pl.length := List.length_pos.mpr hpl
    rw [if_pos (by omega), if_neg hpl]

/-- C7 counterexample: `mC7` is a valid message in every respect except that
its payload is present but empty; encoding produces the 46-byte packet, and
decoding that packet yields a message whose `data` is `None`, not the empty
payload — so not every field of `mC7` is reproduced. -/
theorem c7_counterexample :
    mC7.data = some [] ∧
    get_message mC7 =
      some ([0x10] ++ izzyTag ++ [46] ++ List.replicate 16 3 ++
        List.replicate 16 4 ++ [1]) ∧
    process_packet mkDefault
      ([0x10] ++ izzyTag ++ [46] ++ List.replicate 16 3 ++
        List.replicate 16 4 ++ [1]) = PPOutcome.ok { mC7 with data := none } ∧
    ({ mC7 with data := none } : HeartbeatMessage) ≠ mC7 := by decide

/-- C7 (amended): for every valid message — any byte preamble, an 11-byte
tag, 16-byte sender and receiver ids, any byte message type, consistent
length field, and a payload that is absent or has length 1-200 —
`process_packet` applied to `get_message`'s output reproduces every field
exactly.  (A present-but-empty payload instead decodes as absent: the
46-byte encoding does not distinguish the two.) -/
theorem c7_roundtrip (m0 m : HeartbeatMessage) (tagB sid rid : List Nat)
    (hpre : m.preamble < 256)
    (htag : m.msg_id = some tagB) (htagL : tagB.length = 11)
    (htagB : ∀ b ∈ tagB, b < 256)
    (hsid : m.sender_id = some sid) (hsidL : sid.length = 16)
    (hsidB : ∀ b ∈ sid, b < 256)
    (hrid : m.receiver_id = some rid) (hridL : rid.length = 16)
    (hridB : ∀ b ∈ rid, b < 256)
    (hmt : ∃ t, m.message_type = some t ∧ t < 256)
    (hpl : m.data = none ∨
      ∃ pl, m.data = some pl ∧ 1 ≤ pl.length ∧ pl.length ≤ 200 ∧
        ∀ b ∈ pl, b < 256)
    (hlen : m.msg_length = 46 + (m.data.getD []).length) :
    ∃ enc, get_message m = some enc ∧ process_packet m0 enc = PPOutcome.ok m := by
  obtain ⟨p, mi, ml, si, ri, mty, da⟩ := m
  obtain ⟨mt, hmt1, hmt2⟩ := hmt
  dsimp only at hpre htag hsid hrid hmt1 hlen hpl
  subst htag hsid hrid hmt1 hlen
  refine ⟨[p] ++ tagB ++ [46 + (da.getD []).length] ++ sid ++ rid ++ [mt] ++
    da.getD [], ?_, ?_⟩
  · rw [get_message]
    dsimp only [msgIdBytes, senderBytes, receiverBytes, dataBytes,
      Option.getD]
    rw [if_pos]
    refine ⟨hpre, htagB, ?_, hsidB, hridB, hmt2, ?_⟩
    · rcases hpl with h | ⟨pl, h, h1, h200, hplB⟩ <;> subst h
      · simp
      · simp only [Option.getD]
        omega
    · rcases hpl with h | ⟨pl, h, h1, h200, hplB⟩ <;> subst h
      · simp
      · exact hplB
  · have hd := process_packet_encoded m0 p (46 + (da.getD []).length) mt
      tagB sid rid (da.getD []) htagL hsidL hridL rfl
    rw [hd]
    rcases hpl with h | ⟨pl, h, h1, h200, hplB⟩ <;> subst h
    · simp
    · have hne : pl ≠ [] := by
        intro hc
        subst hc
        simp at h1
      simp [hne]

/-- C7 witness: the amended round-trip theorem evaluated on the concrete
valid message `mC7w` (payload [7]). -/
theorem c7_witness :
    ∃ enc, get_message mC7w = some enc ∧
      process_packet mkDefault enc = PPOutcome.ok mC7w :=
  c7_roundtrip mkDefault mC7w izzyTag (List.replicate 16 3)
    (List.replicate 16 4) (by decide) rfl (by decide) (by decide) rfl
    (by decide) (by decide) rfl (by decide) (by decide)
    ⟨MessageType.HELLO, rfl, by decide⟩
    (Or.inr ⟨[7], rfl, by decide, by decide, by decide⟩) rfl

/-- C9: starting from the open socket of a fresh Responder, any number of
reply transmissions sends at most one reply through an open socket, and after
the first attempt the socket is closed forever — `close()` follows the first
`sendto` and nothing reopens it (heartbeat.py lines 343-345). -/
theorem c9_at_most_one_open_reply (n : Nat) :
    (replySend^[n] responderSocketInit).repliesThroughOpen ≤ 1 ∧
    (replySend^[n + 1] responderSocketInit).isOpen = false := by
  have h1 : replySend responderSocketInit =
      { isOpen := false, repliesThroughOpen := 1 } := by
    simp [replySend, responderSocketInit]
  have hfix : replySend { isOpen := false, repliesThroughOpen := 1 } =
      ({ isOpen := false, repliesThroughOpen := 1 } : ResponderSendSocket) := by
    simp [replySend]
  cases n with
  | zero => exact ⟨Nat.zero_le 1, by
      rw [Function.iterate_one, h1]⟩
  | succ k =>
      rw [Function.iterate_succ_apply, Function.iterate_succ_apply, h1,
        Function.iterate_fixed hfix, Function.iterate_fixed hfix]
      exact ⟨Nat.le_refl 1, rfl⟩
